import Mathlib

/-!
Verification of the Gagiteck AI SaaS platform against its documented
behaviour.  The repository ships a Next.js dashboard, REST API
documentation, and SDKs; this file gives a shallow embedding of the
pieces the checked claims are about: webhook HMAC-SHA256 signature
verification (docs/DEVELOPER.md `verify_signature`,
docs/deployment-kubernetes.md `verify_webhook`), the execution status
enum handled by the dashboard, the dashboard auth middleware, the
signup/change-password validation, the settings page API-key handling,
and spec-modelled parts of the API server (which is not part of the
provided source).

Machine integers are `Nat` with explicit `% 2 ^ 32` where 32-bit
wrap-around matters; byte strings are `List Nat` of values below 256.
-/

/-! ## SHA-256 over byte lists

A faithful executable translation of the FIPS 180-4 algorithm invoked
by the repository's webhook-verification snippets through Python's
`hashlib.sha256`.  Words are `Nat` kept below `2 ^ 32` by `w32`. -/

/-- Truncate to a 32-bit word. -/
def w32 (n : Nat) : Nat := n % 4294967296

/-- Right rotation of a 32-bit word. -/
def rotr (n x : Nat) : Nat := w32 ((x >>> n) ||| (x <<< (32 - n)))

/-- Logical right shift. -/
def shr (n x : Nat) : Nat := x >>> n

/-- SHA-256 `Ch` function. -/
def sha256Ch (x y z : Nat) : Nat := (x &&& y) ^^^ ((x ^^^ 4294967295) &&& z)

/-- SHA-256 `Maj` function. -/
def sha256Maj (x y z : Nat) : Nat := (x &&& y) ^^^ (x &&& z) ^^^ (y &&& z)

/-- SHA-256 big Σ₀. -/
def bigSigma0 (x : Nat) : Nat := rotr 2 x ^^^ rotr 13 x ^^^ rotr 22 x

/-- SHA-256 big Σ₁. -/
def bigSigma1 (x : Nat) : Nat := rotr 6 x ^^^ rotr 11 x ^^^ rotr 25 x

/-- SHA-256 small σ₀. -/
def smallSigma0 (x : Nat) : Nat := rotr 7 x ^^^ rotr 18 x ^^^ shr 3 x

/-- SHA-256 small σ₁. -/
def smallSigma1 (x : Nat) : Nat := rotr 17 x ^^^ rotr 19 x ^^^ shr 10 x

/-- The 64 SHA-256 round constants. -/
def sha256K : List Nat :=
  [1116352408, 1899447441, 3049323471, 3921009573, 961987163, 1508970993,
   2453635748, 2870763221, 3624381080, 310598401, 607225278, 1426881987,
   1925078388, 2162078206, 2614888103, 3248222580, 3835390401, 4022224774,
   264347078, 604807628, 770255983, 1249150122, 1555081692, 1996064986,
   2554220882, 2821834349, 2952996808, 3210313671, 3336571891, 3584528711,
   113926993, 338241895, 666307205, 773529912, 1294757372, 1396182291,
   1695183700, 1986661051, 2177026350, 2456956037, 2730485921, 2820302411,
   3259730800, 3345764771, 3516065817, 3600352804, 4094571909, 275423344,
   430227734, 506948616, 659060556, 883997877, 958139571, 1322822218,
   1537002063, 1747873779, 1955562222, 2024104815, 2227730452, 2361852424,
   2428436474, 2756734187, 3204031479, 3329325298]

/-- The SHA-256 working state: eight 32-bit words. -/
structure Sha256State where
  a : Nat
  b : Nat
  c : Nat
  d : Nat
  e : Nat
  f : Nat
  g : Nat
  h : Nat
deriving Repr, DecidableEq

/-- The SHA-256 initial hash value. -/
def sha256Init : Sha256State :=
  ⟨1779033703, 3144134277, 1013904242, 2773480762,
   1359893119, 2600822924, 528734635, 1541459225⟩

/-- One SHA-256 compression round, consuming a round constant paired with
a message-schedule word. -/
def sha256Round (st : Sha256State) (kw : Nat × Nat) : Sha256State :=
  let t1 := w32 (st.h + bigSigma1 st.e + sha256Ch st.e st.f st.g + kw.1 + kw.2)
  let t2 := w32 (bigSigma0 st.a + sha256Maj st.a st.b st.c)
  ⟨w32 (t1 + t2), st.a, st.b, st.c, w32 (st.d + t1), st.e, st.f, st.g⟩

/-- Assemble big-endian 32-bit words from bytes, four at a time. -/
def bytesToWords : List Nat → List Nat
  | a :: b :: c :: d :: rest => w32 (((a * 256 + b) * 256 + c) * 256 + d) :: bytesToWords rest
  | _ => []

/-- Extend a 16-word block to the 64-word message schedule: `n` more
words, each from the words 2, 7, 15 and 16 places back. -/
def sha256Schedule : Nat → List Nat → List Nat
  | 0, ws => ws
  | n + 1, ws =>
    let t := ws.length
    let wt := w32 (smallSigma1 (ws.getD (t - 2) 0) + ws.getD (t - 7) 0 +
                   smallSigma0 (ws.getD (t - 15) 0) + ws.getD (t - 16) 0)
    sha256Schedule n (ws ++ [wt])

/-- Compress one 64-byte block into the running hash state. -/
def sha256Block (st : Sha256State) (block : List Nat) : Sha256State :=
  let ws := sha256Schedule 48 (bytesToWords block)
  let r := (sha256K.zip ws).foldl sha256Round st
  ⟨w32 (st.a + r.a), w32 (st.b + r.b), w32 (st.c + r.c), w32 (st.d + r.d),
   w32 (st.e + r.e), w32 (st.f + r.f), w32 (st.g + r.g), w32 (st.h + r.h)⟩

/-- A natural number as `n` big-endian bytes. -/
def natToBytesBE : Nat → Nat → List Nat
  | 0, _ => []
  | n + 1, v => natToBytesBE n (v / 256) ++ [v % 256]

/-- SHA-256 message padding: a 0x80 byte, zeros, then the 64-bit
big-endian bit length, to a multiple of 64 bytes. -/
def sha256Pad (msg : List Nat) : List Nat :=
  let l := msg.length
  let k := (64 - (l + 9) % 64) % 64
  msg ++ 128 :: List.replicate k 0 ++ natToBytesBE 8 (8 * l)

/-- Split a byte list into 64-byte chunks; the fuel argument bounds the
recursion and any value at least the list length is enough. -/
def chunks64 : Nat → List Nat → List (List Nat)
  | 0, _ => []
  | _, [] => []
  | fuel + 1, l => l.take 64 :: chunks64 fuel (l.drop 64)

/-- The eight word fields of a hash state, in output order. -/
def stateWords (st : Sha256State) : List Nat :=
  [st.a, st.b, st.c, st.d, st.e, st.f, st.g, st.h]

/-- Serialize 32-bit words to big-endian bytes. -/
def wordsBytes : List Nat → List Nat
  | [] => []
  | w :: ws => (w >>> 24) % 256 :: (w >>> 16) % 256 :: (w >>> 8) % 256 :: w % 256 :: wordsBytes ws

/-- SHA-256 of a byte list, as a 32-byte digest. -/
def sha256 (msg : List Nat) : List Nat :=
  let padded := sha256Pad msg
  wordsBytes (stateWords ((chunks64 padded.length padded).foldl sha256Block sha256Init))

/-! ## HMAC-SHA256, hex digests and string encoding -/

/-- Lowercase hexadecimal digit. -/
def hexChar (n : Nat) : Char := if n < 10 then Char.ofNat (48 + n) else Char.ofNat (87 + n)

/-- Two lowercase hex characters of a byte. -/
def byteHex (b : Nat) : List Char := [hexChar (b / 16), hexChar (b % 16)]

/-- Lowercase hex string of a byte list, as Python's `hexdigest()`. -/
def hexdigest (bs : List Nat) : String := String.mk (bs.flatMap byteHex)

/-- UTF-8 encoding of a single code point. -/
def utf8Char (c : Nat) : List Nat :=
  if c < 128 then [c]
  else if c < 2048 then [192 ||| (c >>> 6), 128 ||| (c &&& 63)]
  else if c < 65536 then [224 ||| (c >>> 12), 128 ||| ((c >>> 6) &&& 63), 128 ||| (c &&& 63)]
  else [240 ||| (c >>> 18), 128 ||| ((c >>> 12) &&& 63), 128 ||| ((c >>> 6) &&& 63), 128 ||| (c &&& 63)]

/-- UTF-8 bytes of a string, as Python's `str.encode()`. -/
def strBytes (s : String) : List Nat := s.data.flatMap (fun c => utf8Char c.toNat)

/-- HMAC-SHA256 (RFC 2104) over byte lists, block size 64, as Python's
`hmac.new(key, msg, hashlib.sha256)`. -/
def hmacSha256 (key msg : List Nat) : List Nat :=
  let k0 := if 64 < key.length then sha256 key else key
  let kp := k0 ++ List.replicate (64 - k0.length) 0
  sha256 (kp.map (fun b => b ^^^ 92) ++ sha256 (kp.map (fun b => b ^^^ 54) ++ msg))

/-! ## Webhook signature verification

Translated from the repository's two documented verifiers:
`verify_signature` in docs/DEVELOPER.md (Flask consumer; the payload is
the raw request bytes and the secret is the module-level
`WEBHOOK_SECRET`, passed explicitly here) and `verify_webhook` in
docs/deployment-kubernetes.md (string payload and secret).  Python's
`hmac.compare_digest` is a constant-time string comparison whose boolean
result is string equality; the timing aspect is outside this embedding. -/

/-- `verify_signature(payload, signature)` from docs/DEVELOPER.md. -/
def verify_signature (secret : String) (payload : List Nat) (signature : String) : Bool :=
  let expected := hexdigest (hmacSha256 (strBytes secret) payload)
  ("sha256=" ++ expected) == signature

/-- `verify_webhook(payload, signature, secret)` from
docs/deployment-kubernetes.md. -/
def verify_webhook (payload signature secret : String) : Bool :=
  let expected := hexdigest (hmacSha256 (strBytes secret) (strBytes payload))
  ("sha256=" ++ expected) == signature

/-- The signature the platform attaches to a webhook delivery
(`X-Webhook-Signature` header): `sha256=` followed by the lowercase hex
HMAC-SHA256 of the payload under the shared secret. -/
def webhookSignature (secret : String) (payload : List Nat) : String :=
  "sha256=" ++ hexdigest (hmacSha256 (strBytes secret) payload)

/-! ## Execution status enum

The dashboard's executions view (src/dashboard/src/pages/agents/index.tsx)
maps status strings to icons and badge styles; the cases it handles are
the platform's execution status enum.  The transition discipline itself
lives in the API server, which is not part of the provided source, and is
modelled from the spec. -/

/-- The execution status enum: the five values the dashboard's status
renderers handle and the spec lists. -/
inductive ExecutionStatus where
  | pending
  | running
  | completed
  | failed
  | cancelled
deriving DecidableEq, Repr, Fintype

/-- The status enum as a list of its values. -/
def statusValues : List ExecutionStatus :=
  [.pending, .running, .completed, .failed, .cancelled]

/-- The wire string of a status. -/
def ExecutionStatus.toStr : ExecutionStatus → String
  | .pending => "pending"
  | .running => "running"
  | .completed => "completed"
  | .failed => "failed"
  | .cancelled => "cancelled"

/-- `getStatusIcon` from the dashboard executions page: the icon component
chosen for each status string, `Clock` for anything unrecognised. -/
def getStatusIcon (status : String) : String :=
  if status = "completed" then "CheckCircle2"
  else if status = "failed" then "XCircle"
  else if status = "running" then "Loader2"
  else if status = "cancelled" then "StopCircle"
  else "Clock"

/-- The `styles` record of `getStatusBadge` from the dashboard executions
page. -/
def statusBadgeStyles : List (String × String) :=
  [("completed", "bg-green-100 text-green-700 dark:bg-green-900 dark:text-green-300"),
   ("failed", "bg-red-100 text-red-700 dark:bg-red-900 dark:text-red-300"),
   ("running", "bg-blue-100 text-blue-700 dark:bg-blue-900 dark:text-blue-300"),
   ("cancelled", "bg-gray-100 text-gray-700 dark:bg-gray-800 dark:text-gray-300"),
   ("pending", "bg-yellow-100 text-yellow-700 dark:bg-yellow-900 dark:text-yellow-300")]

/-- `getStatusBadge` from the dashboard executions page:
`styles[status] || styles.pending`. -/
def getStatusBadge (status : String) : String :=
  match statusBadgeStyles.lookup status with
  | some s => s
  | none => ((statusBadgeStyles.lookup "pending").getD "")

/-- Whether a status is terminal: the spec's terminal states are
completed, failed and cancelled. -/
def isTerminal : ExecutionStatus → Bool
  | .completed => true
  | .failed => true
  | .cancelled => true
  | _ => false

/-- Modelled from the spec: the execution engine is not in the provided
source.  Per the spec, status is "set by simple assignment", cancellation
sets a status flag, and completed/failed/cancelled are terminal, after
which no operation changes the status again. -/
def setStatus (cur target : ExecutionStatus) : ExecutionStatus :=
  if isTerminal cur then cur else target

/-! ## Dashboard auth middleware

Translated from the `withAuth` middleware of the dashboard
(src/unnamed/part_007 and src/dashboard/src/middleware.ts): a request is
authorized when its path starts with a public prefix or a static-asset
prefix, otherwise exactly when a session token is present; unauthenticated
requests go to the configured sign-in page. -/

/-- JavaScript's `pathname.startsWith(p)`, as a prefix test on character
lists (the middleware's prefixes are ASCII, where the two coincide). -/
def startsWith (pathname p : String) : Bool := p.data.isPrefixOf pathname.data

/-- `publicPaths` from the middleware: prefixes served without
authentication. -/
def publicPaths : List String :=
  ["/auth/signin", "/auth/signup", "/auth/error", "/api/auth"]

/-- The `authorized` callback of `withAuth`: public paths and static
assets are allowed without a token; every other path requires one. -/
def authorized (pathname : String) (token : Option String) : Bool :=
  if publicPaths.any (fun p => startsWith pathname p) then true
  else if startsWith pathname "/_next" || startsWith pathname "/favicon"
       || startsWith pathname "/robots" then true
  else token.isSome

/-- The middleware's `pages.signIn` setting: where unauthenticated
requests are redirected. -/
def signInPage : String := "/auth/signin"

/-! ## Signup and change-password validation

Translated from `handleSubmit` in src/dashboard/src/pages/auth/signup.tsx
and `handleChangePassword` in src/dashboard/src/pages/settings/index.tsx.
Each handler validates locally before issuing any network request: a
mismatched confirmation or a password shorter than 8 characters only sets
an error message and returns. -/

/-- The JSON body of the POST to /v1/auth/signup. -/
structure SignupRequest where
  name : String
  email : String
  password : String
deriving DecidableEq, Repr

/-- `handleSubmit` from the signup page: the request issued (none when
validation fails) and the error message set. -/
def signupSubmit (name email password confirmPassword : String) :
    Option SignupRequest × String :=
  if password ≠ confirmPassword then (none, "Passwords do not match")
  else if password.length < 8 then (none, "Password must be at least 8 characters")
  else (some ⟨name, email, password⟩, "")

/-- `handleChangePassword` from the settings page: the password PATCHed to
/v1/auth/me (none when validation fails) and the password error set. -/
def changePasswordSubmit (newPassword confirmPassword : String) :
    Option String × Option String :=
  if newPassword ≠ confirmPassword then (none, some "Passwords do not match")
  else if newPassword.length < 8 then (none, some "Password must be at least 8 characters")
  else (some newPassword, none)

/-! ## Settings page API-key state

Translated from the settings page of the dashboard
(src/dashboard/src/pages/settings/index.tsx): the client-side `APIKey`
record carries the full `key` string; `fetchApiKeys` stores the GET
/v1/auth/api-keys response; `handleCreateApiKey` appends the created
record and shows the key "once" via `newlyCreatedKey`; the key list's
copy button invokes `handleCopyKey(apiKey.key)`. -/

/-- The dashboard's `APIKey` interface. -/
structure APIKey where
  id : String
  name : String
  key : String
  created_at : String
deriving DecidableEq, Repr

/-- The API-key related state of the settings page. -/
structure SettingsState where
  apiKeys : List APIKey
  newlyCreatedKey : Option String
deriving DecidableEq, Repr

/-- The settings page's initial state. -/
def initialSettings : SettingsState := ⟨[], none⟩

/-- `fetchApiKeys`: replaces the list with the GET /v1/auth/api-keys
response, whose client type carries the full `key` string. -/
def fetchApiKeys (st : SettingsState) (data : List APIKey) : SettingsState :=
  { st with apiKeys := data }

/-- `handleCreateApiKey` on a 2xx response: appends the created record to
the list and sets `newlyCreatedKey` ("Show full key only once"). -/
def handleCreateApiKey (st : SettingsState) (newKey : APIKey) : SettingsState :=
  { st with apiKeys := st.apiKeys ++ [newKey], newlyCreatedKey := some newKey.key }

/-- `handleCopyKey(key)`: the string written to the clipboard. -/
def handleCopyKey (key : String) : String := key

/-- The strings the key list's copy buttons yield: one per listed key,
each the full `apiKey.key`. -/
def copyableKeys (st : SettingsState) : List String :=
  st.apiKeys.map (fun k => handleCopyKey k.key)

/-! ## Execution lifecycle

The API server and workflow engine are not in the provided source; the
lifecycle is modelled from the spec and the documented API: triggering a
workflow answers an execution with status "running", which later moves to
exactly one of the terminal states, observed by polling
GET /v1/executions/{id}. -/

/-- An execution record, from the documented Execution resource. -/
structure Execution where
  id : String
  resource_id : String
  status : ExecutionStatus
deriving DecidableEq, Repr

/-- Modelled from the spec: the API server is not in the provided source.
POST /v1/workflows/{id}/trigger creates a new execution of the workflow
whose response carries status "running" (docs: Trigger Workflow). -/
def triggerWorkflow (workflowId executionId : String) : Execution :=
  { id := executionId, resource_id := workflowId, status := .running }

/-- Modelled from the spec: the status transitions of an execution — a
running execution may complete, fail or be cancelled, and nothing else
changes a status. -/
inductive StatusStep : ExecutionStatus → ExecutionStatus → Prop
  | complete : StatusStep .running .completed
  | fail : StatusStep .running .failed
  | cancel : StatusStep .running .cancelled

/-- GET /v1/executions/{id}: a poll observes the execution's status. -/
def pollStatus (e : Execution) : ExecutionStatus := e.status

/-- Recording a status transition on an execution record. -/
def stepExecution (e : Execution) (s : ExecutionStatus) : Execution :=
  { e with status := s }

/-! ## Error response shape

The API server is not in the provided source; the error body is modelled
from the documented Error Response Format, and the client read is
translated from the signup page's `data.detail || ...` handling. -/

/-- A JSON value. -/
inductive Json where
  | str (s : String)
  | num (n : Int)
  | obj (fields : List (String × Json))
  | arr (items : List Json)
  | null

/-- Field access on a JSON object. -/
def Json.getField : Json → String → Option Json
  | .obj fields, k => fields.lookup k
  | _, _ => none

/-- Modelled from the spec: the API server is not in the provided source.
Every failed request's body is the documented
`{"detail": str, "code": str, "status": int}` object. -/
def errorBody (detail code : String) (status : Int) : Json :=
  .obj [("detail", .str detail), ("code", .str code), ("status", .num status)]

/-- The signup page's read of a non-ok response:
`data.detail || "Failed to create account"` (an empty string is falsy in
JavaScript, so it falls back). -/
def clientErrorMessage (data : Json) : String :=
  match data.getField "detail" with
  | some (.str s) => if s = "" then "Failed to create account" else s
  | _ => "Failed to create account"

/-! ## Agent store round trip

The API server is not in the provided source; creation and retrieval are
modelled from the documented Create Agent / Get Agent endpoints and the
dashboard's form defaults. -/

/-- An agent's generation config, from the documented config object. -/
structure AgentConfig where
  model : String
  max_tokens : Nat
  temperature : ℚ
  max_iterations : Nat
  timeout_ms : Nat
deriving DecidableEq, Repr

/-- Modelled from the spec: the defaults applied when a create request
omits config — the dashboard's form defaults (claude-3-sonnet, 4096
tokens, temperature 0.7) and the documented iteration cap and timeout. -/
def defaultAgentConfig : AgentConfig := ⟨"claude-3-sonnet", 4096, 7 / 10, 25, 120000⟩

/-- An agent resource. -/
structure Agent where
  id : String
  name : String
  system_prompt : Option String
  config : AgentConfig
  tools : List String
  status : String
deriving DecidableEq, Repr

/-- The body of POST /v1/agents. -/
structure CreateAgentRequest where
  name : String
  system_prompt : Option String
  config : Option AgentConfig
  tools : List String
deriving DecidableEq, Repr

/-- The server's agent table. -/
structure AgentStore where
  agents : List (String × Agent)
  nextId : Nat

/-- Modelled from the spec: the API server is not in the provided source.
POST /v1/agents stores an agent with the submitted and defaulted fields
under a fresh id, with status "active" (docs: Create Agent response). -/
def createAgent (st : AgentStore) (req : CreateAgentRequest) : AgentStore × Agent :=
  let a : Agent :=
    { id := "agent_" ++ toString st.nextId,
      name := req.name,
      system_prompt := req.system_prompt,
      config := req.config.getD defaultAgentConfig,
      tools := req.tools,
      status := "active" }
  (⟨(a.id, a) :: st.agents, st.nextId + 1⟩, a)

/-- Modelled from the spec: GET /v1/agents/{id} returns the stored agent. -/
def getAgent (st : AgentStore) (id : String) : Option Agent :=
  st.agents.lookup id

/-! ## Rate-limit headers

The API server is not in the provided source; the limiter is modelled
from the spec as a fixed-window counter whose headers are attached to
every response. -/

/-- The limiter's per-client state. -/
structure RateLimitState where
  limit : Nat
  remaining : Nat
  resetAt : Nat
deriving DecidableEq, Repr

/-- The X-RateLimit-Limit / X-RateLimit-Remaining / X-RateLimit-Reset
headers carried by a response. -/
structure RateLimitHeaders where
  limit : Nat
  remaining : Nat
  reset : Nat
deriving DecidableEq, Repr

/-- Modelled from the spec: the API server is not in the provided source.
A fixed-window limiter: when the window has expired the counter refills
to the limit and a new reset time starts; each served request consumes
one unit; an exhausted window rejects the request; every response carries
the three rate-limit headers.  Returns (new state, headers, served?). -/
def handleRequest (st : RateLimitState) (now windowLen : Nat) :
    RateLimitState × RateLimitHeaders × Bool :=
  if st.resetAt ≤ now then
    if st.limit = 0 then
      (⟨st.limit, 0, now + windowLen⟩, ⟨st.limit, 0, now + windowLen⟩, false)
    else
      (⟨st.limit, st.limit - 1, now + windowLen⟩,
       ⟨st.limit, st.limit - 1, now + windowLen⟩, true)
  else
    if st.remaining = 0 then
      (st, ⟨st.limit, 0, st.resetAt⟩, false)
    else
      (⟨st.limit, st.remaining - 1, st.resetAt⟩,
       ⟨st.limit, st.remaining - 1, st.resetAt⟩, true)

/-! ## Workflow step execution

The workflow engine is not in the provided source; it is modelled from
the spec: triggering a workflow iterates the steps in dependency order,
substitutes `\x7b\x7bstep_id.output\x7d\x7d`-style placeholders in each
step's config with the outputs recorded so far, calls the underlying
agent or webhook, and records the step's output under its id.  Config
values are modelled as parsed templates: literal parts and placeholder
parts naming an earlier step. -/

/-- A part of a config template: literal text or a placeholder naming an
earlier step's output. -/
inductive TemplatePart where
  | lit (s : String)
  | placeholder (stepId : String)
deriving DecidableEq, Repr

/-- A workflow step, from the documented Create Workflow body: id, type
(agent/condition/delay/webhook), config fields, and dependency links. -/
structure WorkflowStep where
  id : String
  step_type : String
  config : List (String × List TemplatePart)
  depends_on : List String
deriving DecidableEq, Repr

/-- Render one template part against the recorded outputs: a placeholder
becomes the output recorded under the named step id. -/
def renderPart (outputs : List (String × String)) : TemplatePart → String
  | .lit s => s
  | .placeholder sid => ((outputs.lookup sid).getD "")

/-- Render a whole template. -/
def renderTemplate (outputs : List (String × String)) (t : List TemplatePart) : String :=
  String.join (t.map (renderPart outputs))

/-- The config a step is called with: each field rendered against the
recorded outputs. -/
def renderConfig (outputs : List (String × String)) (s : WorkflowStep) :
    List (String × String) :=
  s.config.map (fun kv => (kv.1, renderTemplate outputs kv.2))

/-- Modelled from the spec: the workflow engine is not in the provided
source.  Run the steps in order: substitute placeholders in the step's
config from the outputs recorded so far, call the underlying agent or
webhook (`call`), record the output under the step's id.  Returns the
recorded (step id, output) pairs in execution order. -/
def runSteps (call : WorkflowStep → List (String × String) → String) :
    List WorkflowStep → List (String × String) → List (String × String)
  | [], _ => []
  | s :: rest, outputs =>
    (s.id, call s (renderConfig outputs s)) ::
      runSteps call rest (outputs ++ [(s.id, call s (renderConfig outputs s))])

/-- A two-step demo workflow: the second step depends on the first and
its message references the first step's output, as in the documented
Content Pipeline example. -/
def demoStep1 : WorkflowStep :=
  ⟨"step_1", "agent", [("message", [TemplatePart.lit "Research the topic"])], []⟩

/-- The dependent second step of the demo workflow. -/
def demoStep2 : WorkflowStep :=
  ⟨"step_2", "agent",
   [("message", [TemplatePart.lit "Write an article based on: ",
                 TemplatePart.placeholder "step_1"])],
   ["step_1"]⟩

/-- A demo agent call: answers a string derived from the step id. -/
def demoCall : WorkflowStep → List (String × String) → String :=
  fun s _ => "out_" ++ s.id

/-! ## Theorems -/

set_option maxRecDepth 20000

/-- Every byte emitted by `wordsBytes` is below 256. -/
theorem wordsBytes_lt (ws : List Nat) : ∀ b ∈ wordsBytes ws, b < 256 := by
  induction ws with
  | nil => simp [wordsBytes]
  | cons w ws ih =>
    intro b hb
    simp only [wordsBytes, List.mem_cons] at hb
    rcases hb with h | h | h | h | h
    · omega
    · omega
    · omega
    · omega
    · exact ih b h

/-- `wordsBytes` emits four bytes per word. -/
theorem wordsBytes_length (ws : List Nat) : (wordsBytes ws).length = 4 * ws.length := by
  induction ws with
  | nil => rfl
  | cons w ws ih => simp [wordsBytes, ih]; omega

/-- A SHA-256 digest is 32 bytes long. -/
theorem sha256_length (msg : List Nat) : (sha256 msg).length = 32 := by
  unfold sha256
  rw [wordsBytes_length]
  rfl

/-- Every byte of a SHA-256 digest is below 256. -/
theorem sha256_lt (msg : List Nat) : ∀ b ∈ sha256 msg, b < 256 := by
  unfold sha256
  exact wordsBytes_lt _

/-- An HMAC-SHA256 digest is 32 bytes long. -/
theorem hmacSha256_length (key msg : List Nat) : (hmacSha256 key msg).length = 32 := by
  unfold hmacSha256
  exact sha256_length _

/-- Every byte of an HMAC-SHA256 digest is below 256. -/
theorem hmacSha256_lt (key msg : List Nat) : ∀ b ∈ hmacSha256 key msg, b < 256 := by
  unfold hmacSha256
  exact sha256_lt _

/-- `hexChar` is injective on hex digits. -/
theorem hexChar_inj : ∀ m < 16, ∀ n < 16, hexChar m = hexChar n → m = n := by decide

/-- `byteHex` is injective on bytes. -/
theorem byteHex_inj {b c : Nat} (hb : b < 256) (hc : c < 256)
    (h : byteHex b = byteHex c) : b = c := by
  simp only [byteHex, List.cons.injEq, and_true] at h
  have h1 : b / 16 = c / 16 := hexChar_inj _ (by omega) _ (by omega) h.1
  have h2 : b % 16 = c % 16 := hexChar_inj _ (by omega) _ (by omega) h.2
  omega

/-- Equal strings have equal character lists. -/
theorem string_mk_inj {l1 l2 : List Char} (h : String.mk l1 = String.mk l2) : l1 = l2 :=
  congrArg String.data h

/-- `hexdigest` is injective on byte lists. -/
theorem hexdigest_inj : ∀ bs cs : List Nat, (∀ b ∈ bs, b < 256) → (∀ c ∈ cs, c < 256) →
    hexdigest bs = hexdigest cs → bs = cs := by
  intro bs
  induction bs with
  | nil =>
    intro cs _ _ h
    unfold hexdigest at h
    have hdata := string_mk_inj h
    cases cs with
    | nil => rfl
    | cons c cs => simp [byteHex] at hdata
  | cons b bs ih =>
    intro cs hb hc h
    unfold hexdigest at h
    have hdata := string_mk_inj h
    cases cs with
    | nil => simp [byteHex] at hdata
    | cons c cs =>
      simp only [List.flatMap_cons, byteHex, List.cons_append, List.nil_append,
        List.cons.injEq] at hdata
      obtain ⟨e1, e2, erest⟩ := hdata
      have hbc : b = c :=
        byteHex_inj (hb b (by simp)) (hc c (by simp)) (by simp [byteHex, e1, e2])
      have htail : bs = cs := by
        apply ih cs (fun x hx => hb x (by simp [hx])) (fun x hx => hc x (by simp [hx]))
        unfold hexdigest
        exact congrArg String.mk erest
      rw [hbc, htail]

/-- Two 32-byte digests that agree byte-for-byte modulo 256 are equal. -/
theorem digest_ext {l1 l2 : List Nat} (h1 : l1.length = 32) (h2 : l2.length = 32)
    (hlt1 : ∀ b ∈ l1, b < 256) (hlt2 : ∀ b ∈ l2, b < 256)
    (hpt : ∀ i : Fin 32, l1.getD i 0 % 256 = l2.getD i 0 % 256) : l1 = l2 := by
  apply List.ext_getElem (h1.trans h2.symm)
  intro i hi1 hi2
  have hpi := hpt ⟨i, by omega⟩
  rw [List.getD_eq_getElem l1 0 hi1, List.getD_eq_getElem l2 0 hi2] at hpi
  have b1 : l1[i] < 256 := hlt1 _ (List.getElem_mem hi1)
  have b2 : l2[i] < 256 := hlt2 _ (List.getElem_mem hi2)
  omega

/-- FIPS 180-4 test vector: SHA-256 of the empty message. -/
theorem sha256_empty_vector :
    hexdigest (sha256 []) =
      "e3b0c44298fc1c149afbf4c8996fb92427ae41e4649b934ca495991b7852b855" := by decide

/-- RFC 2202-style test vector for HMAC-SHA256. -/
theorem hmacSha256_vector :
    hexdigest (hmacSha256 (strBytes "key")
        (strBytes "The quick brown fox jumps over the lazy dog")) =
      "f7bc83f430538424b13298e6aa6fb143ef4d59a14946175997479dbc2d1a3cd8" := by decide

/-- `verify_signature` accepts exactly the documented signature string. -/
theorem verify_signature_iff (secret : String) (payload : List Nat) (signature : String) :
    verify_signature secret payload signature = true ↔
      signature = webhookSignature secret payload := by
  show (("sha256=" ++ hexdigest (hmacSha256 (strBytes secret) payload)) == signature) = true ↔ _
  rw [beq_iff_eq]
  exact eq_comm

/-- `verify_signature` rejects any payload whose HMAC digest differs from
the signed payload's. -/
theorem verify_signature_tamper (secret : String) (payload payload' : List Nat)
    (hne : hmacSha256 (strBytes secret) payload' ≠ hmacSha256 (strBytes secret) payload) :
    verify_signature secret payload' (webhookSignature secret payload) = false := by
  by_contra hcon
  rw [Bool.not_eq_false, verify_signature_iff] at hcon
  unfold webhookSignature at hcon
  have hlist : "sha256=".data ++ (hexdigest (hmacSha256 (strBytes secret) payload)).data
      = "sha256=".data ++ (hexdigest (hmacSha256 (strBytes secret) payload')).data :=
    congrArg String.data hcon
  have hcancel := List.append_cancel_left hlist
  have hhex : hexdigest (hmacSha256 (strBytes secret) payload)
      = hexdigest (hmacSha256 (strBytes secret) payload') := congrArg String.mk hcancel
  exact hne (hexdigest_inj _ _ (hmacSha256_lt _ _) (hmacSha256_lt _ _) hhex).symm

/-- Claim C1 (amended): webhook signature verification returns true if and
only if the signature is the string `sha256=` followed by the lowercase hex
HMAC-SHA256 of the payload under the shared secret; it accepts the
correctly computed signature of every payload and rejects the signature on
any payload whose HMAC-SHA256 digest differs from the signed payload's;
`verify_webhook` agrees with `verify_signature` on the UTF-8 bytes of its
payload.  The comparison is modelled as string equality, which is the
boolean result of the source's constant-time `hmac.compare_digest`. -/
theorem c1_webhook_signature_verification (secret : String) (payload payload' : List Nat)
    (signature : String) :
    (verify_signature secret payload signature = true ↔
       signature = webhookSignature secret payload) ∧
    verify_signature secret payload (webhookSignature secret payload) = true ∧
    (hmacSha256 (strBytes secret) payload' ≠ hmacSha256 (strBytes secret) payload →
       verify_signature secret payload' (webhookSignature secret payload) = false) ∧
    (∀ p s : String, verify_webhook p s secret = verify_signature secret (strBytes p) s) :=
  ⟨verify_signature_iff secret payload signature,
   (verify_signature_iff secret payload _).mpr rfl,
   verify_signature_tamper secret payload payload',
   fun _ _ => rfl⟩

/-- Claim C1 witness: at a concrete secret and payload, the correctly
computed signature is accepted and a tampered payload is rejected. -/
theorem c1_webhook_signature_verification_witness :
    verify_signature "whsec" [1, 2, 3] (webhookSignature "whsec" [1, 2, 3]) = true ∧
    verify_signature "whsec" [9, 9, 9] (webhookSignature "whsec" [1, 2, 3]) = false :=
  ⟨(c1_webhook_signature_verification "whsec" [1, 2, 3] [9, 9, 9] "").2.1,
   (c1_webhook_signature_verification "whsec" [1, 2, 3] [9, 9, 9] "").2.2.1 (by decide)⟩

/-- Claim C1 (counterexample): the claim's "rejects any differing payload"
clause fails — the digest space is finite (32 bytes), so by pigeonhole two
distinct payloads share an HMAC-SHA256 digest, and verification accepts the
first payload's signature on the second. -/
theorem c1_counterexample :
    ¬ (∀ (secret : String) (payload payload' : List Nat),
         payload' ≠ payload →
         verify_signature secret payload' (webhookSignature secret payload) = false) := by
  intro hall
  obtain ⟨x, y, hxy, hfeq⟩ := Finite.exists_ne_map_eq_of_infinite
    (fun n : ℕ => fun i : Fin 32 =>
      (⟨(hmacSha256 (strBytes "s") (List.replicate n 0)).getD i 0 % 256, by omega⟩ : Fin 256))
  have hdig : hmacSha256 (strBytes "s") (List.replicate x 0)
      = hmacSha256 (strBytes "s") (List.replicate y 0) := by
    apply digest_ext (hmacSha256_length _ _) (hmacSha256_length _ _)
      (hmacSha256_lt _ _) (hmacSha256_lt _ _)
    intro i
    exact congrArg Fin.val (congrFun hfeq i)
  have hne : List.replicate y (0 : Nat) ≠ List.replicate x 0 := by
    intro h
    apply hxy
    have hlen := congrArg List.length h
    simp only [List.length_replicate] at hlen
    omega
  have hrej := hall "s" (List.replicate x 0) (List.replicate y 0) hne
  have hacc : verify_signature "s" (List.replicate y 0)
      (webhookSignature "s" (List.replicate x 0)) = true := by
    rw [verify_signature_iff]
    unfold webhookSignature
    rw [hdig]
  rw [hrej] at hacc
  exact Bool.false_ne_true hacc

/-- Claim C2 (counterexample): the status enum does not have four values —
the claim itself lists five (pending, running, completed, failed,
cancelled), and the dashboard handles all five. -/
theorem c2_counterexample : ¬ (statusValues.length = 4) := by decide

/-- Claim C2 (amended): every execution status takes a value from the
five-value enum pending/running/completed/failed/cancelled, assignment never
leaves the enum, the terminal states are exactly completed, failed and
cancelled, and once a status is terminal no assignment changes it; the
dashboard's badge renderer handles every enum value. -/
theorem c2_execution_status_enum :
    statusValues.length = 5 ∧
    (∀ s : ExecutionStatus, s ∈ statusValues) ∧
    (∀ s : ExecutionStatus, isTerminal s = true ↔
       s = .completed ∨ s = .failed ∨ s = .cancelled) ∧
    (∀ cur target : ExecutionStatus, isTerminal cur = true → setStatus cur target = cur) ∧
    (∀ cur target : ExecutionStatus, setStatus cur target ∈ statusValues) ∧
    (∀ s ∈ statusValues, (statusBadgeStyles.lookup s.toStr).isSome = true) := by decide

/-- Claim C2 witness: a completed execution keeps its status under any
further assignment. -/
theorem c2_execution_status_enum_witness :
    setStatus .completed .running = .completed :=
  c2_execution_status_enum.2.2.2.1 .completed .running (by decide)

/-- Claim C9: a request with no session token is authorized exactly when
its path starts with one of the public prefixes /auth/signin,
/auth/signup, /auth/error, /api/auth or a static-asset prefix /_next,
/favicon, /robots; every other path is authorized exactly when a token is
present; unauthenticated requests are redirected to /auth/signin. -/
theorem c9_middleware_authorization (pathname : String) (token : Option String) :
    (authorized pathname none = true ↔
       (startsWith pathname "/auth/signin" = true ∨ startsWith pathname "/auth/signup" = true ∨
        startsWith pathname "/auth/error" = true ∨ startsWith pathname "/api/auth" = true ∨
        startsWith pathname "/_next" = true ∨ startsWith pathname "/favicon" = true ∨
        startsWith pathname "/robots" = true)) ∧
    ((startsWith pathname "/auth/signin" = false ∧ startsWith pathname "/auth/signup" = false ∧
      startsWith pathname "/auth/error" = false ∧ startsWith pathname "/api/auth" = false ∧
      startsWith pathname "/_next" = false ∧ startsWith pathname "/favicon" = false ∧
      startsWith pathname "/robots" = false) →
       (authorized pathname token = true ↔ token.isSome = true)) ∧
    signInPage = "/auth/signin" := by
  refine ⟨?_, ?_, rfl⟩
  · simp only [authorized, publicPaths, List.any_cons, List.any_nil, Bool.or_false]
    split_ifs with h1 h2
    · simp only [true_iff]
      simp only [Bool.or_eq_true] at h1
      tauto
    · simp only [true_iff]
      simp only [Bool.or_eq_true] at h2
      tauto
    · constructor
      · intro hc
        exact absurd hc (by simp)
      · intro hor
        simp only [Bool.or_eq_true, not_or] at h1 h2
        tauto
  · intro hfalse
    simp only [authorized, publicPaths, List.any_cons, List.any_nil, Bool.or_false]
    split_ifs with h1 h2
    · simp only [Bool.or_eq_true] at h1
      rcases h1 with h | h | h | h <;> simp_all
    · simp only [Bool.or_eq_true] at h2
      rcases h2 with h | h <;> simp_all
    · exact Iff.rfl

/-- Claim C9 witness: the agents page requires a token and gets one; with
no token it is not authorized. -/
theorem c9_middleware_authorization_witness :
    authorized "/agents" (some "token") = true ∧ ¬ authorized "/agents" none = true := by
  constructor
  · exact ((c9_middleware_authorization "/agents" (some "token")).2.1 (by decide)).mpr rfl
  · intro hc
    have hor := (c9_middleware_authorization "/agents" none).1.mp hc
    revert hor
    decide

/-- Claim C10: signup and change-password issue no request when the
password differs from its confirmation or is shorter than 8 characters,
setting only the documented local error message, and send the POST or
PATCH exactly when both checks pass. -/
theorem c10_password_validation (name email password confirm : String) :
    (password ≠ confirm →
       signupSubmit name email password confirm = (none, "Passwords do not match") ∧
       changePasswordSubmit password confirm = (none, some "Passwords do not match")) ∧
    (password = confirm → password.length < 8 →
       signupSubmit name email password confirm =
         (none, "Password must be at least 8 characters") ∧
       changePasswordSubmit password confirm =
         (none, some "Password must be at least 8 characters")) ∧
    (password = confirm → ¬ password.length < 8 →
       signupSubmit name email password confirm = (some ⟨name, email, password⟩, "") ∧
       changePasswordSubmit password confirm = (some password, none)) ∧
    ((signupSubmit name email password confirm).1.isSome = true ↔
       password = confirm ∧ 8 ≤ password.length) := by
  refine ⟨fun hne => ?_, fun heq hlt => ?_, fun heq hge => ?_, ?_⟩
  · simp [signupSubmit, changePasswordSubmit, hne]
  · subst heq
    simp [signupSubmit, changePasswordSubmit, hlt]
  · subst heq
    simp [signupSubmit, changePasswordSubmit, hge]
  · unfold signupSubmit
    split_ifs with h1 h2
    · simp only [Option.isSome_none, Bool.false_eq_true, false_iff]
      intro hc
      exact h1 hc.1
    · simp only [Option.isSome_none, Bool.false_eq_true, false_iff]
      intro hc
      exact absurd hc.2 (by omega)
    · simp only [Option.isSome_some, true_iff]
      exact ⟨not_not.mp h1, by omega⟩

/-- Claim C10 witness: a short password is rejected locally and a valid
confirmation goes through. -/
theorem c10_password_validation_witness :
    signupSubmit "Jo" "jo@x.io" "short" "short" =
      (none, "Password must be at least 8 characters") ∧
    changePasswordSubmit "password123" "password123" = (some "password123", none) :=
  ⟨((c10_password_validation "Jo" "jo@x.io" "short" "short").2.1 rfl (by decide)).1,
   ((c10_password_validation "x" "y" "password123" "password123").2.2.1 rfl (by decide)).2⟩

/-- Claim C5 (code evaluation at the failing input): after creating an API
key, the full secret stays in the page's key list and the list's copy
button yields it — and a later GET-backed refresh of the list exposes
whatever full `key` strings the response carries.  This contradicts the
documented "the key is only returned once" behaviour the claim states. -/
theorem c5_full_key_recoverable :
    copyableKeys (handleCreateApiKey initialSettings
        ⟨"key_xyz789", "Production Key", "ggt_live_secret", "2024-01-15T10:30:00Z"⟩) =
      ["ggt_live_secret"] ∧
    copyableKeys (fetchApiKeys initialSettings
        [⟨"key_xyz789", "Production Key", "ggt_live_secret", "2024-01-15T10:30:00Z"⟩]) =
      ["ggt_live_secret"] ∧
    (∀ st : SettingsState, ∀ k ∈ st.apiKeys, handleCopyKey k.key = k.key) :=
  ⟨rfl, rfl, fun _ _ _ => rfl⟩

/-- Claim C3: triggering a workflow creates an execution whose initial
status is running; every transition leaves running and lands in a
terminal state (never any other value); any status reachable from running
is running or terminal; polling after a recorded transition observes it. -/
theorem c3_trigger_execution_lifecycle (workflowId executionId : String) :
    (triggerWorkflow workflowId executionId).status = .running ∧
    (∀ s s' : ExecutionStatus, StatusStep s s' → s = .running ∧ isTerminal s' = true) ∧
    (∀ s' : ExecutionStatus, Relation.ReflTransGen StatusStep .running s' →
       s' = .running ∨ isTerminal s' = true) ∧
    (∀ (e : Execution) (s' : ExecutionStatus), StatusStep (pollStatus e) s' →
       pollStatus (stepExecution e s') = s') := by
  refine ⟨rfl, ?_, ?_, ?_⟩
  · intro s s' h
    cases h <;> exact ⟨rfl, rfl⟩
  · intro s' h
    induction h with
    | refl => exact Or.inl rfl
    | tail hab hbc ih =>
      right
      cases hbc <;> rfl
  · intro e s' _
    rfl

/-- Claim C3 witness: the documented trigger response is running, and an
execution that completed is terminal. -/
theorem c3_trigger_execution_lifecycle_witness :
    (triggerWorkflow "workflow_xyz" "exec_abc123").status = .running ∧
    (ExecutionStatus.completed = .running ∨ isTerminal .completed = true) :=
  ⟨(c3_trigger_execution_lifecycle "workflow_xyz" "exec_abc123").1,
   (c3_trigger_execution_lifecycle "workflow_xyz" "exec_abc123").2.2.1 .completed
     (Relation.ReflTransGen.single StatusStep.complete)⟩

/-- Claim C4: every error response body carries a string detail, a string
code and an integer status under those names, and a client reading the
detail field of a non-ok response obtains the message. -/
theorem c4_error_body_shape (detail code : String) (status : Int) :
    (errorBody detail code status).getField "detail" = some (.str detail) ∧
    (errorBody detail code status).getField "code" = some (.str code) ∧
    (errorBody detail code status).getField "status" = some (.num status) ∧
    (detail ≠ "" → clientErrorMessage (errorBody detail code status) = detail) := by
  refine ⟨rfl, rfl, rfl, ?_⟩
  intro h
  simp [clientErrorMessage, errorBody, Json.getField, List.lookup, h]

/-- Claim C4 witness: the documented not-found error renders its detail. -/
theorem c4_error_body_shape_witness :
    clientErrorMessage (errorBody "Resource not found" "NOT_FOUND" 404) =
      "Resource not found" :=
  (c4_error_body_shape "Resource not found" "NOT_FOUND" 404).2.2.2 (by decide)

/-- Claim C7: creating an agent and then fetching it by the returned id
yields an agent whose name, system_prompt, config, tools and status match
the values submitted and defaulted at creation. -/
theorem c7_agent_create_get_roundtrip (st : AgentStore) (req : CreateAgentRequest) :
    getAgent (createAgent st req).1 (createAgent st req).2.id = some (createAgent st req).2 ∧
    (createAgent st req).2.name = req.name ∧
    (createAgent st req).2.system_prompt = req.system_prompt ∧
    (createAgent st req).2.config = req.config.getD defaultAgentConfig ∧
    (createAgent st req).2.tools = req.tools ∧
    (createAgent st req).2.status = "active" := by
  refine ⟨?_, rfl, rfl, rfl, rfl, rfl⟩
  simp [createAgent, getAgent, List.lookup]

/-- Claim C8: every response carries the three rate-limit headers,
mirroring the limiter state; within a window each served request
decrements the remaining count by exactly one, the reset time unchanged,
until the window resets at the reset timestamp, when the count refills to
the limit before the request is counted. -/
theorem c8_rate_limit_headers (st : RateLimitState) (now windowLen : Nat) :
    (handleRequest st now windowLen).2.1.limit = (handleRequest st now windowLen).1.limit ∧
    (handleRequest st now windowLen).2.1.remaining =
      (handleRequest st now windowLen).1.remaining ∧
    (handleRequest st now windowLen).2.1.reset = (handleRequest st now windowLen).1.resetAt ∧
    (now < st.resetAt → 0 < st.remaining →
       (handleRequest st now windowLen).2.1.remaining = st.remaining - 1 ∧
       (handleRequest st now windowLen).1.resetAt = st.resetAt ∧
       (handleRequest st now windowLen).2.2 = true) ∧
    (st.resetAt ≤ now → 0 < st.limit →
       (handleRequest st now windowLen).2.1.remaining = st.limit - 1 ∧
       (handleRequest st now windowLen).1.resetAt = now + windowLen) := by
  unfold handleRequest
  split_ifs with h1 h2 h3
  · exact ⟨rfl, rfl, rfl, fun hw _ => absurd h1 (by omega), fun _ hl => absurd h2 (by omega)⟩
  · exact ⟨rfl, rfl, rfl, fun hw _ => absurd h1 (by omega), fun _ _ => ⟨rfl, rfl⟩⟩
  · exact ⟨rfl, h3.symm, rfl, fun _ hr => absurd h3 (by omega), fun hw _ => absurd hw h1⟩
  · exact ⟨rfl, rfl, rfl, fun _ _ => ⟨rfl, rfl, rfl⟩, fun hw _ => absurd hw h1⟩

/-- Claim C8 witness: a served in-window request decrements the count by
one, and a request after the reset time refills to the limit first. -/
theorem c8_rate_limit_headers_witness :
    (handleRequest ⟨100, 100, 60⟩ 0 60).2.1.remaining = 100 - 1 ∧
    (handleRequest ⟨100, 0, 60⟩ 120 60).2.1.remaining = 100 - 1 :=
  ⟨((c8_rate_limit_headers ⟨100, 100, 60⟩ 0 60).2.2.2.1 (by decide) (by decide)).1,
   ((c8_rate_limit_headers ⟨100, 0, 60⟩ 120 60).2.2.2.2 (by decide) (by decide)).1⟩

/-- Running a concatenation of step lists runs the first part, then the
second against the outputs extended with the first part's records. -/
theorem runSteps_append (call : WorkflowStep → List (String × String) → String)
    (pre rest : List WorkflowStep) :
    ∀ outputs, runSteps call (pre ++ rest) outputs =
      runSteps call pre outputs ++
        runSteps call rest (outputs ++ runSteps call pre outputs) := by
  induction pre with
  | nil => intro outputs; simp [runSteps]
  | cons s pre ih =>
    intro outputs
    simp only [List.cons_append, runSteps, List.append_eq]
    rw [ih]
    simp [List.append_assoc]

/-- The records carry one entry per step, keyed by the step's id, in
execution order. -/
theorem runSteps_keys (call : WorkflowStep → List (String × String) → String)
    (steps : List WorkflowStep) :
    ∀ outputs, (runSteps call steps outputs).map Prod.fst = steps.map WorkflowStep.id := by
  induction steps with
  | nil => intro _; rfl
  | cons s steps ih => intro outputs; simp [runSteps, ih]

/-- Looking a key up past entries that do not carry it. -/
theorem lookup_append_of_not_mem {β : Type} (l1 l2 : List (String × β)) (k : String)
    (h : k ∉ l1.map Prod.fst) : (l1 ++ l2).lookup k = l2.lookup k := by
  induction l1 with
  | nil => rfl
  | cons p l1 ih =>
    obtain ⟨a, b⟩ := p
    simp only [List.map_cons, List.mem_cons, not_or] at h
    have hne : (k == a) = false := by simpa using h.1
    simp [List.lookup, hne, ih h.2]

/-- A key present among an association list's keys has a looked-up value. -/
theorem lookup_some_of_mem_keys {β : Type} (l : List (String × β)) (k : String)
    (h : k ∈ l.map Prod.fst) : ∃ out, l.lookup k = some out := by
  induction l with
  | nil => simp at h
  | cons p l ih =>
    obtain ⟨a, b⟩ := p
    rcases List.mem_cons.mp h with he | hm
    · refine ⟨b, ?_⟩
      simp only at he
      simp [List.lookup, he]
    · by_cases he : k = a
      · exact ⟨b, by simp [List.lookup, he]⟩
      · have hne : (k == a) = false := by simpa using he
        obtain ⟨out, hout⟩ := ih hm
        exact ⟨out, by simp [List.lookup, hne, hout]⟩

/-- Claim C6: for a workflow whose step ids are distinct (and distinct
from the initial input keys) and whose list order respects the
depends_on links, the engine runs the marked step only after every
earlier step has recorded its output: the trace factors through the
records of the earlier steps, every dependency of the step has a
recorded output visible to it, and every placeholder naming an earlier
step renders to exactly that step's recorded output. -/
theorem c6_workflow_dependency_order
    (call : WorkflowStep → List (String × String) → String)
    (pre post : List WorkflowStep) (s : WorkflowStep)
    (input : List (String × String))
    (hkeys : ∀ k ∈ input.map Prod.fst, k ∉ (pre ++ s :: post).map WorkflowStep.id)
    (_hids : ((pre ++ s :: post).map WorkflowStep.id).Nodup)
    (hdeps : ∀ d ∈ s.depends_on, d ∈ pre.map WorkflowStep.id) :
    runSteps call (pre ++ s :: post) input =
      runSteps call pre input ++
        (s.id, call s (renderConfig (input ++ runSteps call pre input) s)) ::
        runSteps call post
          (input ++ runSteps call pre input ++
            [(s.id, call s (renderConfig (input ++ runSteps call pre input) s))]) ∧
    (runSteps call pre input).map Prod.fst = pre.map WorkflowStep.id ∧
    (∀ d ∈ s.depends_on, ∃ out,
       (runSteps call pre input).lookup d = some out ∧
       (input ++ runSteps call pre input).lookup d = some out) ∧
    (∀ sid ∈ pre.map WorkflowStep.id,
       renderPart (input ++ runSteps call pre input) (.placeholder sid) =
         ((runSteps call pre input).lookup sid).getD "" ∧
       ∃ out, (runSteps call pre input).lookup sid = some out) := by
  have hk := runSteps_keys call pre input
  have hvis : ∀ sid ∈ pre.map WorkflowStep.id,
      (input ++ runSteps call pre input).lookup sid =
        (runSteps call pre input).lookup sid := by
    intro sid hsid
    apply lookup_append_of_not_mem
    intro hmem
    exact hkeys sid hmem (by
      rw [List.map_append]
      exact List.mem_append_left _ hsid)
  refine ⟨?_, hk, ?_, ?_⟩
  · rw [runSteps_append]
    simp [runSteps, List.append_assoc]
  · intro d hd
    have hdid := hdeps d hd
    obtain ⟨out, hout⟩ := lookup_some_of_mem_keys _ d (by rw [hk]; exact hdid)
    exact ⟨out, hout, by rw [hvis d hdid]; exact hout⟩
  · intro sid hsid
    constructor
    · show ((input ++ runSteps call pre input).lookup sid).getD "" = _
      rw [hvis sid hsid]
    · exact lookup_some_of_mem_keys _ sid (by rw [hk]; exact hsid)

/-- Claim C6 witness: in the demo workflow, the placeholder naming
step_1 renders to step_1's recorded output when step_2 runs. -/
theorem c6_workflow_dependency_order_witness :
    renderPart ([] ++ runSteps demoCall [demoStep1] [])
        (.placeholder "step_1") = "out_step_1" := by
  have h := (c6_workflow_dependency_order demoCall [demoStep1] [] demoStep2 []
    (by simp) (by decide) (by decide)).2.2.2 "step_1" (by decide)
  rw [h.1]
  decide
